import Mathlib

/-!
Verification of the wol-mqtt daemon (src/wol-mqtt.py) against its
natural-language specification.

The program is shallowly embedded: every function below mirrors the
corresponding Python function line by line.  External effects are made
explicit:

* the external `wakeonlan` helper invoked through `subprocess.run` is an
  oracle `Runner` mapping the invocation index and argument vector to either
  a captured process result or a raised error (`FileNotFoundError` when the
  binary is missing);
* the JSON parse performed by the external `json` library is an oracle input
  `Except Unit JVal` (`.error ()` models `json.decoder.JSONDecodeError`);
* log lines, broker subscribe/publish calls, sleeps and socket operations are
  recorded as an event trace (`List Event`);
* Python exceptions that a function may raise to its caller are modelled with
  `Except PyError`; a function returning `.error e` models an uncaught raise.

Message payloads are modelled after UTF-8 decoding (the code decodes with
`str(msg.payload, "UTF-8")` before any use relevant to the claims).
-/

namespace WolMqtt

/-- PyError enumerates the Python exception classes the embedding needs:
`TypeError` (raised e.g. by `in` on a non-container, by `range` on a
non-integer, and by `subprocess.run` on non-string arguments),
`FileNotFoundError` (raised by `subprocess.run` when the helper binary is
missing) and `KeyError` (dictionary subscript miss; unreachable in this
program because every subscript is guarded by an `in` test). -/
inductive PyError where
  | typeError
  | fileNotFoundError
  | keyError
deriving DecidableEq, Repr

/-- JVal models the values `json.loads` can produce.  JSON numbers are
restricted to integers; no claim involves fractional numbers. -/
inductive JVal where
  | jnull
  | jbool (b : Bool)
  | jnum (n : Int)
  | jstr (s : String)
  | jarr (xs : List JVal)
  | jobj (fields : List (String × JVal))

/-- ProcResult models the `CompletedProcess` value returned by
`subprocess.run(..., capture_output=True, text=True)`. -/
structure ProcResult where
  stdout : String
  stderr : String
  returncode : Int
deriving DecidableEq, Repr

/-- Event is one observable step of the program: a log line at a given
severity, a broker operation, a helper invocation, or a sleep. -/
inductive Event where
  | logDebug (s : String)
  | logInfo (s : String)
  | logError (s : String)
  | subscribe (topic : String)
  | publish (topic : String) (payload : String)
  | sendPacket (args : List String)
  | sleep (secs : Nat)
  | connectAttempt
  | loopStart
  | loopStop
  | disconnect
deriving DecidableEq, Repr

/-- Runner is the oracle for `subprocess.run`: given the index of the
invocation (the helper is an external stateful process, so successive calls
may behave differently) and the argument vector, it yields either the
captured result or a raised error. -/
def Runner := Nat → List String → Except PyError ProcResult

/-- subList needle hay decides whether needle occurs as a contiguous
sublist of hay; it implements the semantics of the Python substring test
`needle in hay`. -/
def subList (needle : List Char) : List Char → Bool
  | [] => needle.isEmpty
  | c :: rest => needle.isPrefixOf (c :: rest) || subList needle rest

/-- strContains hay needle is the Python expression `needle in hay` for
strings. -/
def strContains (hay needle : String) : Bool :=
  subList needle.toList hay.toList

/-- pyStrip models the Python `str.strip()` call used on the captured
standard error (both functions remove leading and trailing whitespace). -/
def pyStrip (s : String) : String := s.trim

/-- pyStr renders a JVal the way Python `str()` renders the corresponding
value, for the scalar shapes that can reach a log line in this program.
Containers are abbreviated: no claim inspects a log line that interpolates a
container. -/
def pyStr : JVal → String
  | .jnull => "None"
  | .jbool true => "True"
  | .jbool false => "False"
  | .jnum n => toString n
  | .jstr s => s
  | .jarr _ => "<list>"
  | .jobj _ => "<dict>"

/-- pyContains key v models the Python expression `key in v` for a string
key: dictionary key lookup, substring test on strings, membership on lists,
and a raised TypeError on every non-container value. -/
def pyContains (key : String) : JVal → Except PyError Bool
  | .jobj fields => .ok (fields.any fun q => q.1 == key)
  | .jstr s => .ok (strContains s key)
  | .jarr xs => .ok (xs.any fun x => match x with | .jstr s => s == key | _ => false)
  | _ => .error .typeError

/-- pySubscript v key models the Python expression `v[key]` for a string
key: dictionary lookup (KeyError on a miss) and a raised TypeError on every
other value. -/
def pySubscript (v : JVal) (key : String) : Except PyError JVal :=
  match v with
  | .jobj fields =>
    match fields.find? (fun q => q.1 == key) with
    | some q => .ok q.2
    | none => .error .keyError
  | _ => .error .typeError

/-- pyRangeLen count models the length of the Python `range(count)`
sequence: defined for integers (empty when the bound is not positive) and
for booleans (which are integers in Python); every other value makes
`range` raise TypeError. -/
def pyRangeLen : JVal → Except PyError Nat
  | .jnum n => .ok n.toNat
  | .jbool b => .ok (if b then 1 else 0)
  | _ => .error .typeError

/-- pyInt is the integer value of a JVal that passed pyRangeLen; its value
on other shapes is irrelevant (those shapes raise before it is consulted). -/
def pyInt : JVal → Int
  | .jnum n => n
  | .jbool b => if b then 1 else 0
  | _ => 0

/-- MQTT_BASE_TOPIC mirrors the constant at line 22 of the source. -/
def MQTT_BASE_TOPIC : String := "wol"

/-- MQTT_BROKER is modelled at its documented default; the environment
override is an external input that only changes the text of one log line. -/
def MQTT_BROKER : String := "mqtt.local"

/-- MQTT_PORT is modelled at its documented default, as for MQTT_BROKER. -/
def MQTT_PORT : Nat := 1883

/-- buildArgs mac ip is the argument vector handed to `subprocess.run` at
lines 64 and 66 of the source.  `subprocess.run` raises TypeError when an
argument is not a string, which is modelled here because the decoded MAC
and IP fields of a payload can be arbitrary JSON values. -/
def buildArgs (mac : JVal) (ip : Option JVal) : Except PyError (List String) :=
  match ip with
  | none =>
    match mac with
    | .jstr m => .ok ["wakeonlan", m]
    | _ => .error .typeError
  | some ipv =>
    match ipv, mac with
    | .jstr i0, .jstr m => .ok ["wakeonlan", "-i", i0, m]
    | _, _ => .error .typeError

/-- wolArgs m ip is buildArgs specialised to string-valued fields, the shape
every well-formed payload produces. -/
def wolArgs (m : String) (ip : Option String) : List String :=
  match ip with
  | none => ["wakeonlan", m]
  | some i0 => ["wakeonlan", "-i", i0, m]

/-- send_wol is the function at lines 60 to 70 of the source: invoke the
helper, capture its output, report success iff the captured standard output
contains "magic packet", and otherwise log one error line holding the
stripped captured standard error.  A raise from `subprocess.run` (missing
binary, non-string argument) propagates. -/
def send_wol (run : Runner) (idx : Nat) (mac : JVal) (ip : Option JVal) :
    List Event × Except PyError Bool :=
  match buildArgs mac ip with
  | .error e => ([], .error e)
  | .ok args =>
    match run idx args with
    | .error e => ([], .error e)
    | .ok status =>
      if strContains status.stdout "magic packet" then
        ([.sendPacket args], .ok true)
      else
        ([.sendPacket args,
          .logError ("Error sending WoL packet: \x27" ++ pyStrip status.stderr ++ "\x27")],
         .ok false)

/-- okAt run args i says whether the i-th helper invocation counts as a
success for send_wol: the call returned and its standard output contains
the confirmation phrase. -/
def okAt (run : Runner) (args : List String) (i : Nat) : Bool :=
  match run i args with
  | .ok st => strContains st.stdout "magic packet"
  | .error _ => false

/-- RunnerTotalOn run args says the helper never raises on this argument
vector (the binary exists); the captured output is unconstrained. -/
def RunnerTotalOn (run : Runner) (args : List String) : Prop :=
  ∀ j, ∃ st, run j args = Except.ok st

/-- wakeupInfo is the informational log line emitted at lines 75 to 78 of
the source, including the unbalanced parenthesis of the no-IP branch. -/
def wakeupInfo (mac : JVal) (ip : Option JVal) (count : JVal) : Event :=
  match ip with
  | none => .logInfo ("Sending WoL (x" ++ pyStr count ++ " to " ++ pyStr mac)
  | some ipv =>
    .logInfo ("Sending WoL (x" ++ pyStr count ++ ") to " ++ pyStr mac ++ " via " ++ pyStr ipv)

/-- wakeupGo is the loop body of wakeup (lines 79 to 84): iterate over the
indices of `range(count)`, stop at the first failed send, and sleep one
second after a successful send when the current index is below count - 1.
The first argument of the recursion is the current index i, the second the
number of remaining iterations. -/
def wakeupGo (run : Runner) (mac : JVal) (ip : Option JVal) (cnt : Int)
    (i : Nat) (r : Nat) : List Event × Except PyError Unit :=
  match r with
  | 0 => ([], .ok ())
  | r' + 1 =>
    let s := send_wol run i mac ip
    match s.2 with
    | .error e => (s.1, .error e)
    | .ok false => (s.1, .ok ())
    | .ok true =>
      let rest := wakeupGo run mac ip cnt (i + 1) r'
      if (i : Int) < cnt - 1 then
        (s.1 ++ .sleep 1 :: rest.1, rest.2)
      else
        (s.1 ++ rest.1, rest.2)

/-- wakeup is the function at lines 72 to 84 of the source.  The count
argument is kept as a JVal because on_message forwards the decoded
"repeat" field unchecked; `range(count)` raises TypeError on a
non-integer. -/
def wakeup (run : Runner) (mac : JVal) (ip : Option JVal) (count : JVal) :
    List Event × Except PyError Unit :=
  let info := wakeupInfo mac ip count
  match pyRangeLen count with
  | .error e => ([info], .error e)
  | .ok n =>
    let body := wakeupGo run mac ip (pyInt count) 0 n
    (info :: body.1, body.2)

/-- on_message is the callback at lines 44 to 58 of the source.  The parsed
argument is the outcome of the external `json.loads` call on the payload
(`.error ()` models JSONDecodeError, the only exception the callback
catches); topic and payload are the UTF-8 decoded message fields.  The
evaluation order of the source is preserved: the "ip" lookup, then the
"repeat" lookup, then the "mac" test. -/
def on_message (run : Runner) (parsed : Except Unit JVal) (topic payload : String) :
    List Event × Except PyError Unit :=
  let dbg : Event := .logDebug ("MQTT: Message " ++ topic ++ " = " ++ payload)
  match parsed with
  | .error _ =>
    ([dbg, .logError ("Malformed JSON payload: \x27" ++ payload ++ "\x27")], .ok ())
  | .ok data =>
    match pyContains "ip" data with
    | .error e => ([dbg], .error e)
    | .ok hasIp =>
      match (if hasIp then (pySubscript data "ip").map (fun v => some v) else Except.ok none) with
      | .error e => ([dbg], .error e)
      | .ok ip =>
        match pyContains "repeat" data with
        | .error e => ([dbg], .error e)
        | .ok hasRep =>
          match (if hasRep then pySubscript data "repeat" else Except.ok (.jnum 2)) with
          | .error e => ([dbg], .error e)
          | .ok count =>
            match pyContains "mac" data with
            | .error e => ([dbg], .error e)
            | .ok hasMac =>
              if hasMac then
                match pySubscript data "mac" with
                | .error e => ([dbg], .error e)
                | .ok mac =>
                  let wr := wakeup run mac ip count
                  (dbg :: wr.1, wr.2)
              else
                ([dbg,
                  .logError ("No \x27mac\x27 provided in payload: \x27" ++ payload ++ "\x27")],
                 .ok ())

/-- on_connect is the callback at lines 27 to 41 of the source, as the
trace of actions it performs for a given negotiation result code. -/
def on_connect (rc : Int) : List Event :=
  .logInfo ("MQTT: connected to broker with result code " ++ toString rc) ::
    (if rc = 0 then
      [.subscribe (MQTT_BASE_TOPIC ++ "/command"),
       .publish (MQTT_BASE_TOPIC ++ "/status") "online"]
    else
      [.logError "Failed to correctly login to MQTT broker",
       .disconnect,
       .sleep 5])

/-- ConnOutcome is the result of one `client.connect` call at line 108:
either the TCP connection is established (the CONNACK negotiation result is
delivered later, asynchronously, to on_connect) or the socket connection is
refused and ConnectionRefusedError is raised. -/
inductive ConnOutcome where
  | sockOk
  | refused
deriving DecidableEq, Repr

/-- innerLoop is the heartbeat loop at lines 111 to 114 of the source: log,
publish "online", sleep the update interval, repeat.  The loop is infinite;
the Nat argument is the length of the observed finite prefix, in
iterations.  Within the model the loop body cannot raise: the paho client
publish call on a disconnected client returns an error code instead of
raising (external library contract). -/
def innerLoop (u : Nat) : Nat → List Event
  | 0 => []
  | k + 1 =>
    .logDebug "MQTT: publishing online Status update" ::
    .publish (MQTT_BASE_TOPIC ++ "/status") "online" ::
    .sleep u ::
    innerLoop u k

/-- superLoop is the supervisor loop at lines 104 to 118 of the source,
driven by a script giving the socket-level outcome of each successive
`client.connect` call.  On a refused connection the except branch logs,
sleeps 30 seconds and retries; once a connect succeeds at socket level the
foreground thread enters the heartbeat loop and, the loop body being unable
to raise ConnectionRefusedError, never reaches `client.connect` again.  The
fuel argument bounds the number of loop iterations observed. -/
def superLoop (script : Nat → ConnOutcome) (u : Nat) : Nat → Nat → List Event
  | _, 0 => []
  | a, fuel + 1 =>
    match script a with
    | .refused =>
      .logInfo "MQTT: connecting to broker..." ::
      .connectAttempt ::
      .logError ("Failed to connect to broker on " ++ MQTT_BROKER ++ ":" ++ toString MQTT_PORT) ::
      .sleep 30 ::
      superLoop script u (a + 1) fuel
    | .sockOk =>
      .logInfo "MQTT: connecting to broker..." ::
      .connectAttempt ::
      .loopStart ::
      innerLoop u fuel

/-- connackFailHead is the head of one admissible execution in which the
first `client.connect` succeeds at socket level and the broker then rejects
the negotiation: the CONNACK callback (result code 5) runs on the network
thread right after loop_start, before the foreground heartbeats. -/
def connackFailHead : List Event :=
  [.logInfo "MQTT: connecting to broker...", .connectAttempt, .loopStart] ++ on_connect 5

/-- connackFailScenario k extends connackFailHead with k foreground
heartbeat iterations at the default update interval: the interleaving in
which the rejected negotiation and forced disconnect precede every
heartbeat publish. -/
def connackFailScenario (k : Nat) : List Event :=
  connackFailHead ++ innerLoop 60 k

/-- shutdownTrace is the graceful shutdown path at lines 120 to 132 of the
source: the KeyboardInterrupt handler followed by the unconditional
epilogue.  The paho publish and disconnect calls return error codes rather
than raising when the client is already disconnected (external library
contract), so the sequence is straight-line. -/
def shutdownTrace : List Event :=
  [.logInfo "Interrupted... shutting down",
   .logInfo "MQTT: Publishing offline status",
   .publish (MQTT_BASE_TOPIC ++ "/status") "offline",
   .sleep 3,
   .logInfo "MQTT: disconnecting",
   .loopStop,
   .disconnect]

/-- isSend recognises helper invocation events. -/
def isSend : Event → Bool
  | .sendPacket _ => true
  | _ => false

/-- isSleepE recognises sleep events. -/
def isSleepE : Event → Bool
  | .sleep _ => true
  | _ => false

/-- isSubE recognises subscribe events. -/
def isSubE : Event → Bool
  | .subscribe _ => true
  | _ => false

/-- isPubOf recognises publish events to a given topic with a given
payload. -/
def isPubOf (topic payload : String) : Event → Bool
  | .publish t pl => t == topic && pl == payload
  | _ => false

/-- isConnE recognises socket connect attempts. -/
def isConnE : Event → Bool
  | .connectAttempt => true
  | _ => false

/-- countSends counts helper invocations in a trace. -/
def countSends (tr : List Event) : Nat := (tr.filter isSend).length

/-- countSleeps counts sleeps in a trace. -/
def countSleeps (tr : List Event) : Nat := (tr.filter isSleepE).length

/-- countSubs counts subscriptions in a trace. -/
def countSubs (tr : List Event) : Nat := (tr.filter isSubE).length

/-- countPubs counts publishes of a given topic and payload in a trace. -/
def countPubs (topic payload : String) (tr : List Event) : Nat :=
  (tr.filter (isPubOf topic payload)).length

/-- countConns counts socket connect attempts in a trace. -/
def countConns (tr : List Event) : Nat := (tr.filter isConnE).length

/-- procMagic is a captured helper result whose standard output carries the
confirmation phrase with exit status zero. -/
def procMagic : ProcResult :=
  { stdout := "Sending magic packet to 255.255.255.255:9", stderr := "", returncode := 0 }

/-- procQuiet is a captured helper result with empty output and a non-empty
error stream. -/
def procQuiet : ProcResult :=
  { stdout := "", stderr := "wakeonlan: bad address\n", returncode := 1 }

/-- procNonzeroMagic is a captured helper result whose standard output
carries the confirmation phrase although the exit status is non-zero. -/
def procNonzeroMagic : ProcResult :=
  { stdout := "Sending magic packet to host", stderr := "late failure", returncode := 1 }

/-- runMagic is a helper oracle that always succeeds with a confirming
output. -/
def runMagic : Runner := fun _ _ => .ok procMagic

/-- runMissing is the helper oracle of a system where the wakeonlan binary
is absent: every `subprocess.run` call raises FileNotFoundError. -/
def runMissing : Runner := fun _ _ => .error .fileNotFoundError

/-- runNonzero is a helper oracle returning a confirming output with a
non-zero exit status. -/
def runNonzero : Runner := fun _ _ => .ok procNonzeroMagic

/-- runFailAt1 is a helper oracle whose second invocation (index 1)
produces no confirming output while every other invocation confirms. -/
def runFailAt1 : Runner := fun j _ => if j = 1 then .ok procQuiet else .ok procMagic

/-- dbgEvent t p is the debug log line on_message emits first (line 47). -/
def dbgEvent (t p : String) : Event :=
  .logDebug ("MQTT: Message " ++ t ++ " = " ++ p)

/-- C8: on a successful broker connect (zero negotiation result) on_connect
subscribes to wol/command and publishes "online" to wol/status, each exactly
once, with the subscribe preceding the publish, as the explicit trace
equation shows. -/
theorem C8_connect_success_subscribe_then_online :
    on_connect 0 =
      [.logInfo "MQTT: connected to broker with result code 0",
       .subscribe "wol/command",
       .publish "wol/status" "online"] ∧
    countSubs (on_connect 0) = 1 ∧
    countPubs "wol/status" "online" (on_connect 0) = 1 :=
  ⟨rfl, rfl, rfl⟩

/-- C9: on an interrupt the shutdown sequence publishes "offline" exactly
once, then sleeps three seconds, then disconnects, in that order; the trace
is a constant list, independent of the connection state at interrupt time,
and contains no fault (the paho publish and disconnect calls on a
disconnected client return error codes rather than raising). -/
theorem C9_shutdown_offline_once :
    shutdownTrace =
      [.logInfo "Interrupted... shutting down",
       .logInfo "MQTT: Publishing offline status",
       .publish "wol/status" "offline",
       .sleep 3,
       .logInfo "MQTT: disconnecting",
       .loopStop,
       .disconnect] ∧
    countPubs "wol/status" "offline" shutdownTrace = 1 ∧
    (shutdownTrace.filter (fun e => e == Event.disconnect)).length = 1 :=
  ⟨rfl, rfl, rfl⟩

/-- C1 (amended): send_wol returns success if and only if the captured
standard output contains "magic packet" - the exit status is not consulted;
a non-matching output returns failure and logs exactly one error line
containing the stripped captured standard error; a missing helper binary
makes the call raise instead of returning failure (see the
counterexample). -/
theorem C1_send_wol_success_iff (run : Runner) (idx : Nat) (m : String) (ip : Option String)
    (st : ProcResult) (hrun : run idx (wolArgs m ip) = .ok st) :
    ((send_wol run idx (.jstr m) (ip.map .jstr)).2 = .ok true ↔
       strContains st.stdout "magic packet" = true) ∧
    (strContains st.stdout "magic packet" = false →
       send_wol run idx (.jstr m) (ip.map .jstr) =
         ([.sendPacket (wolArgs m ip),
           .logError ("Error sending WoL packet: \x27" ++ pyStrip st.stderr ++ "\x27")],
          .ok false)) := by
  have hargs : buildArgs (.jstr m) (ip.map .jstr) = .ok (wolArgs m ip) := by
    cases ip <;> rfl
  cases hc : strContains st.stdout "magic packet" <;>
    simp [send_wol, hargs, hrun, hc]

/-- C1 witness: with a helper that confirms, send_wol reports success; with
a helper whose second invocation produces no confirming output, that
invocation reports failure and logs the stripped error text. -/
theorem C1_send_wol_success_iff_witness :
    (send_wol runMagic 0 (.jstr "AA:BB:CC:DD:EE:FF") none).2 = .ok true ∧
    send_wol runFailAt1 1 (.jstr "AA:BB:CC:DD:EE:FF") none =
      ([.sendPacket ["wakeonlan", "AA:BB:CC:DD:EE:FF"],
        .logError ("Error sending WoL packet: \x27" ++ pyStrip procQuiet.stderr ++ "\x27")],
       .ok false) :=
  ⟨(C1_send_wol_success_iff runMagic 0 "AA:BB:CC:DD:EE:FF" none procMagic rfl).1.mpr rfl,
   (C1_send_wol_success_iff runFailAt1 1 "AA:BB:CC:DD:EE:FF" none procQuiet rfl).2 rfl⟩

/-- C1 counterexample: when the helper binary is missing, send_wol raises
FileNotFoundError to its caller - it neither returns failure nor logs an
error line - and when the helper exits non-zero while its standard output
contains the confirmation phrase, send_wol returns success, both contrary
to the claim. -/
theorem C1_counterexample :
    (send_wol runMissing 0 (.jstr "AA:BB:CC:DD:EE:FF") none).2 =
      .error .fileNotFoundError ∧
    (send_wol runMissing 0 (.jstr "AA:BB:CC:DD:EE:FF") none).2 ≠ .ok false ∧
    (send_wol runMissing 0 (.jstr "AA:BB:CC:DD:EE:FF") none).1 = [] ∧
    (send_wol runNonzero 0 (.jstr "AA:BB:CC:DD:EE:FF") none).2 = .ok true ∧
    procNonzeroMagic.returncode ≠ 0 := by
  refine ⟨rfl, fun h => ?_, rfl, rfl, by decide⟩
  exact Except.noConfusion h

/-- C2 (amended): a payload that fails JSON parsing is rejected with one
error log line holding the raw payload and without raising; but a payload
that parses successfully to a non-object scalar (number, boolean or null)
makes the callback raise TypeError to its caller, which the claim as
stated excludes (see the counterexample). -/
theorem C2_malformed_payload :
    (∀ (run : Runner) (t p : String),
       on_message run (.error ()) t p =
         ([dbgEvent t p,
           .logError ("Malformed JSON payload: \x27" ++ p ++ "\x27")], .ok ())) ∧
    (∀ (run : Runner) (t p : String) (n : Int),
       (on_message run (.ok (.jnum n)) t p).2 = .error .typeError) ∧
    (∀ (run : Runner) (t p : String) (b : Bool),
       (on_message run (.ok (.jbool b)) t p).2 = .error .typeError) ∧
    (∀ (run : Runner) (t p : String),
       (on_message run (.ok .jnull) t p).2 = .error .typeError) :=
  ⟨fun _ _ _ => rfl, fun _ _ _ _ => rfl, fun _ _ _ _ => rfl, fun _ _ _ => rfl⟩

/-- C2 counterexample: the payload "5" is valid JSON but not an object; the
claim requires it to be rejected without raising, yet on_message raises
TypeError to its caller (the membership test "ip" in 5 is a TypeError, and
only JSONDecodeError is caught). -/
theorem C2_counterexample :
    (on_message runMagic (.ok (.jnum 5)) "wol/command" "5").2 = .error .typeError := rfl

/-- bool_true_of_not_false turns a non-falsity fact about a Bool into a
truth fact. -/
lemma bool_true_of_not_false {b : Bool} (h : ¬ b = false) : b = true := by
  cases b
  · exact absurd rfl h
  · rfl

/-- countSends_cons unfolds countSends over a cons cell. -/
lemma countSends_cons (e : Event) (tr : List Event) :
    countSends (e :: tr) = (if isSend e = true then 1 else 0) + countSends tr := by
  simp only [countSends, List.filter_cons]
  by_cases h : isSend e = true
  · simp [h, Nat.add_comm]
  · simp [h]

/-- countSleeps_cons unfolds countSleeps over a cons cell. -/
lemma countSleeps_cons (e : Event) (tr : List Event) :
    countSleeps (e :: tr) = (if isSleepE e = true then 1 else 0) + countSleeps tr := by
  simp only [countSleeps, List.filter_cons]
  by_cases h : isSleepE e = true
  · simp [h, Nat.add_comm]
  · simp [h]

/-- isSend_wakeupInfo notes the wakeup banner is a log line, not a send. -/
lemma isSend_wakeupInfo (mac : JVal) (ip : Option JVal) (c : JVal) :
    isSend (wakeupInfo mac ip c) = false := by
  cases ip <;> rfl

/-- isSleepE_wakeupInfo notes the wakeup banner is a log line, not a
sleep. -/
lemma isSleepE_wakeupInfo (mac : JVal) (ip : Option JVal) (c : JVal) :
    isSleepE (wakeupInfo mac ip c) = false := by
  cases ip <;> rfl

/-- countSends_info_cons drops the wakeup banner from a send count. -/
lemma countSends_info_cons (mac : JVal) (ip : Option JVal) (c : JVal) (tr : List Event) :
    countSends (wakeupInfo mac ip c :: tr) = countSends tr := by
  rw [countSends_cons, isSend_wakeupInfo]
  simp

/-- countSleeps_info_cons drops the wakeup banner from a sleep count. -/
lemma countSleeps_info_cons (mac : JVal) (ip : Option JVal) (c : JVal) (tr : List Event) :
    countSleeps (wakeupInfo mac ip c :: tr) = countSleeps tr := by
  rw [countSleeps_cons, isSleepE_wakeupInfo]
  simp

/-- send_wol_true_eq computes send_wol when the helper call returns and its
standard output carries the confirmation phrase. -/
lemma send_wol_true_eq (run : Runner) (mac : JVal) (ip : Option JVal) (args : List String)
    (idx : Nat) (st : ProcResult)
    (hargs : buildArgs mac ip = .ok args)
    (hst : run idx args = .ok st)
    (hc : strContains st.stdout "magic packet" = true) :
    send_wol run idx mac ip = ([.sendPacket args], .ok true) := by
  simp [send_wol, hargs, hst, hc]

/-- send_wol_false_eq computes send_wol when the helper call returns and
its standard output lacks the confirmation phrase. -/
lemma send_wol_false_eq (run : Runner) (mac : JVal) (ip : Option JVal) (args : List String)
    (idx : Nat) (st : ProcResult)
    (hargs : buildArgs mac ip = .ok args)
    (hst : run idx args = .ok st)
    (hc : strContains st.stdout "magic packet" = false) :
    send_wol run idx mac ip =
      ([.sendPacket args,
        .logError ("Error sending WoL packet: \x27" ++ pyStrip st.stderr ++ "\x27")],
       .ok false) := by
  simp [send_wol, hargs, hst, hc]

/-- okAt_true_elim extracts the captured result behind a successful
attempt. -/
lemma okAt_true_elim (run : Runner) (args : List String) (i : Nat)
    (h : okAt run args i = true) :
    ∃ st, run i args = .ok st ∧ strContains st.stdout "magic packet" = true := by
  unfold okAt at h
  cases hr : run i args with
  | error e => rw [hr] at h; simp at h
  | ok st => rw [hr] at h; exact ⟨st, rfl, h⟩

/-- wakeupGo_succ_of_ok unfolds one loop iteration whose send succeeds. -/
lemma wakeupGo_succ_of_ok (run : Runner) (mac : JVal) (ip : Option JVal) (args : List String)
    (cnt : Int) (i s : Nat) (st : ProcResult)
    (hargs : buildArgs mac ip = .ok args)
    (hst : run i args = .ok st)
    (hc : strContains st.stdout "magic packet" = true) :
    wakeupGo run mac ip cnt i (s + 1) =
      (if (i : Int) < cnt - 1 then
         (Event.sendPacket args :: Event.sleep 1 :: (wakeupGo run mac ip cnt (i + 1) s).1,
          (wakeupGo run mac ip cnt (i + 1) s).2)
       else
         (Event.sendPacket args :: (wakeupGo run mac ip cnt (i + 1) s).1,
          (wakeupGo run mac ip cnt (i + 1) s).2)) := by
  have hsw := send_wol_true_eq run mac ip args i st hargs hst hc
  simp only [wakeupGo, hsw, List.singleton_append]

/-- wakeupGo_succ_of_fail unfolds one loop iteration whose send fails: the
loop breaks right after the failed send, with no sleep. -/
lemma wakeupGo_succ_of_fail (run : Runner) (mac : JVal) (ip : Option JVal) (args : List String)
    (cnt : Int) (i s : Nat) (st : ProcResult)
    (hargs : buildArgs mac ip = .ok args)
    (hst : run i args = .ok st)
    (hc : strContains st.stdout "magic packet" = false) :
    wakeupGo run mac ip cnt i (s + 1) =
      ([Event.sendPacket args,
        Event.logError ("Error sending WoL packet: \x27" ++ pyStrip st.stderr ++ "\x27")],
       .ok ()) := by
  have hsw := send_wol_false_eq run mac ip args i st hargs hst hc
  simp only [wakeupGo, hsw]

/-- wakeupGo_all_ok characterises the loop when every attempt in the window
succeeds: one send per iteration, one sleep between consecutive sends and
none after the last, no raise.  The invariant i + r = cnt reflects that the
loop is entered with the index range of range(cnt). -/
lemma wakeupGo_all_ok (run : Runner) (mac : JVal) (ip : Option JVal) (args : List String)
    (hargs : buildArgs mac ip = .ok args) (cnt : Int) :
    ∀ (r i : Nat), ((i : Int) + (r : Int) = cnt) →
      (∀ j, i ≤ j → j < i + r → okAt run args j = true) →
      countSends (wakeupGo run mac ip cnt i r).1 = r ∧
      countSleeps (wakeupGo run mac ip cnt i r).1 = r - 1 ∧
      (wakeupGo run mac ip cnt i r).2 = .ok () := by
  intro r
  induction r with
  | zero => exact fun i _ _ => ⟨rfl, rfl, rfl⟩
  | succ s ih =>
    intro i hinv hok
    obtain ⟨st, hst, hc⟩ := okAt_true_elim run args i (hok i le_rfl (by omega))
    rw [wakeupGo_succ_of_ok run mac ip args cnt i s st hargs hst hc]
    have ihm := ih (i + 1) (by omega) (fun j h1 h2 => hok j (by omega) (by omega))
    by_cases hcond : ((i : Int) < cnt - 1)
    · have hs : 1 ≤ s := by omega
      rw [if_pos hcond]
      refine ⟨?_, ?_, ihm.2.2⟩
      · rw [countSends_cons, countSends_cons, ihm.1]
        simp [isSend]
        omega
      · rw [countSleeps_cons, countSleeps_cons, ihm.2.1]
        simp [isSleepE]
        omega
    · have hs0 : s = 0 := by omega
      subst hs0
      rw [if_neg hcond]
      refine ⟨?_, ?_, ihm.2.2⟩
      · rw [countSends_cons, ihm.1]
        simp [isSend]
      · rw [countSleeps_cons, ihm.2.1]
        simp [isSleepE]

/-- wakeupGo_first_fail characterises the loop when the attempts before f
succeed and attempt f returns without the confirmation phrase: the loop
performs f - i + 1 sends, sleeps only between consecutive sends (none after
the failed one), and returns without raising. -/
lemma wakeupGo_first_fail (run : Runner) (mac : JVal) (ip : Option JVal) (args : List String)
    (hargs : buildArgs mac ip = .ok args) (cnt : Int) :
    ∀ (r i f : Nat), ((i : Int) + (r : Int) = cnt) → i ≤ f → f < i + r →
      (∀ j, i ≤ j → j < f → okAt run args j = true) →
      okAt run args f = false →
      (∃ st, run f args = .ok st) →
      countSends (wakeupGo run mac ip cnt i r).1 = f - i + 1 ∧
      countSleeps (wakeupGo run mac ip cnt i r).1 = f - i ∧
      (wakeupGo run mac ip cnt i r).2 = .ok () := by
  intro r
  induction r with
  | zero => intro i f _ h1 h2 _ _ _; omega
  | succ s ih =>
    intro i f hinv hif hfr hok hf hex
    obtain ⟨st, hst⟩ := hex
    rcases Nat.eq_or_lt_of_le hif with hfi | hfi
    · subst hfi
      have hc : strContains st.stdout "magic packet" = false := by
        unfold okAt at hf
        rw [hst] at hf
        exact hf
      rw [wakeupGo_succ_of_fail run mac ip args cnt i s st hargs hst hc]
      refine ⟨?_, ?_, rfl⟩ <;> simp [countSends, countSleeps, isSend, isSleepE, List.filter]
    · obtain ⟨st0, hst0, hc0⟩ := okAt_true_elim run args i (hok i le_rfl hfi)
      rw [wakeupGo_succ_of_ok run mac ip args cnt i s st0 hargs hst0 hc0]
      have hcond : (i : Int) < cnt - 1 := by omega
      rw [if_pos hcond]
      have ihm := ih (i + 1) f (by omega) (by omega) (by omega)
        (fun j h1 h2 => hok j (by omega) h2) hf ⟨st, hst⟩
      refine ⟨?_, ?_, ihm.2.2⟩
      · rw [countSends_cons, countSends_cons, ihm.1]
        simp [isSend]
        omega
      · rw [countSleeps_cons, countSleeps_cons, ihm.2.1]
        simp [isSleepE]
        omega

/-- wakeupGo_no_raise shows the loop cannot raise as long as the helper
binary is present: every send either succeeds or returns False and breaks
the loop. -/
lemma wakeupGo_no_raise (run : Runner) (mac : JVal) (ip : Option JVal) (args : List String)
    (hargs : buildArgs mac ip = .ok args)
    (htot : RunnerTotalOn run args) (cnt : Int) :
    ∀ r i, (wakeupGo run mac ip cnt i r).2 = .ok () := by
  intro r
  induction r with
  | zero => intro i; rfl
  | succ s ih =>
    intro i
    obtain ⟨st, hst⟩ := htot i
    cases hc : strContains st.stdout "magic packet"
    · rw [wakeupGo_succ_of_fail run mac ip args cnt i s st hargs hst hc]
    · rw [wakeupGo_succ_of_ok run mac ip args cnt i s st hargs hst hc]
      by_cases hcond : ((i : Int) < cnt - 1)
      · rw [if_pos hcond]
        exact ih (i + 1)
      · rw [if_neg hcond]
        exact ih (i + 1)

/-- wakeup_jnum_eq relates wakeup on an integer repeat count to its loop. -/
lemma wakeup_jnum_eq (run : Runner) (mac : JVal) (ip : Option JVal) (N : Int) :
    wakeup run mac ip (.jnum N) =
      (wakeupInfo mac ip (.jnum N) :: (wakeupGo run mac ip N 0 N.toNat).1,
       (wakeupGo run mac ip N 0 N.toNat).2) := rfl

/-- any_eq_find relates the Boolean membership test used by `in` with the
lookup used by subscripting. -/
lemma any_eq_find {α : Type} (pfn : α → Bool) (l : List α) :
    l.any pfn = (l.find? pfn).isSome := by
  induction l with
  | nil => rfl
  | cons a l ih =>
    cases h : pfn a
    · rw [List.any_cons, h, List.find?_cons_of_neg, ih]
      · simp
      · simp [h]
    · rw [List.any_cons, h, List.find?_cons_of_pos]
      · simp
      · exact h

/-- iffield_eq evaluates the guarded optional-field read
`data[k] if k in data else None` on an object payload. -/
lemma iffield_eq (fields : List (String × JVal)) (k : String) :
    (if fields.any (fun q => q.1 == k) then (pySubscript (.jobj fields) k).map (fun v => some v)
     else Except.ok none)
      = Except.ok ((fields.find? (fun q => q.1 == k)).map (fun q => q.2)) := by
  rw [any_eq_find]
  cases h : fields.find? (fun q => q.1 == k) with
  | none => simp [h]
  | some q => simp [h, pySubscript, Except.map]

/-- cntfield_eq evaluates the guarded defaulted read
`data[k] if k in data else d` on an object payload. -/
lemma cntfield_eq (fields : List (String × JVal)) (k : String) (d : JVal) :
    (if fields.any (fun q => q.1 == k) then pySubscript (.jobj fields) k else Except.ok d)
      = Except.ok (((fields.find? (fun q => q.1 == k)).map (fun q => q.2)).getD d) := by
  rw [any_eq_find]
  cases h : fields.find? (fun q => q.1 == k) with
  | none => simp [h]
  | some q => simp [h, pySubscript]

/-- runFailAt1_total notes the helper binary is present for runFailAt1:
every invocation returns a captured result. -/
lemma runFailAt1_total (args : List String) : RunnerTotalOn runFailAt1 args := by
  intro j
  simp only [runFailAt1]
  by_cases h : j = 1
  · rw [if_pos h]
    exact ⟨procQuiet, rfl⟩
  · rw [if_neg h]
    exact ⟨procMagic, rfl⟩

/-- C4: for every payload that parses to an object with no "mac" key,
on_message rejects the message with one error log line carrying the raw
payload, raises nothing to its caller, and performs no send (wakeup is
never invoked, so the trace is exactly the two log lines). -/
theorem C4_missing_mac (run : Runner) (fields : List (String × JVal)) (t p : String)
    (hmac : fields.any (fun q => q.1 == "mac") = false) :
    on_message run (.ok (.jobj fields)) t p =
      ([dbgEvent t p,
        .logError ("No \x27mac\x27 provided in payload: \x27" ++ p ++ "\x27")],
       .ok ()) ∧
    countSends (on_message run (.ok (.jobj fields)) t p).1 = 0 := by
  have main : on_message run (.ok (.jobj fields)) t p =
      ([dbgEvent t p,
        .logError ("No \x27mac\x27 provided in payload: \x27" ++ p ++ "\x27")],
       .ok ()) := by
    simp only [on_message, pyContains, iffield_eq, cntfield_eq, hmac]
    rfl
  rw [main]
  exact ⟨rfl, rfl⟩

/-- C4 witness: a payload with an "ip" field but no "mac" field is
rejected with the documented error line and zero sends. -/
theorem C4_missing_mac_witness :
    on_message runMagic (.ok (.jobj [("ip", .jstr "10.0.0.5")])) "wol/command" "x" =
      ([dbgEvent "wol/command" "x",
        .logError ("No \x27mac\x27 provided in payload: \x27" ++ "x" ++ "\x27")],
       .ok ()) ∧
    countSends (on_message runMagic (.ok (.jobj [("ip", .jstr "10.0.0.5")]))
      "wol/command" "x").1 = 0 :=
  C4_missing_mac runMagic [("ip", .jstr "10.0.0.5")] "wol/command" "x" rfl

/-- C3: a payload with "mac" and no "repeat" field runs wakeup with the
default count 2 (so exactly two sends when both succeed); an integer repeat
count of zero or below performs no send, raises nothing and does not loop
(the loop trace is empty); for a positive count n at most n sends occur,
strictly fewer occur exactly when some attempt before the last one fails,
and after a first failure at attempt f the loop stops having performed
exactly f + 1 sends (fail-fast). -/
theorem C3_repeat_count_semantics :
    (∀ (run : Runner) (m t p : String),
       on_message run (.ok (.jobj [("mac", .jstr m)])) t p =
         (dbgEvent t p :: (wakeup run (.jstr m) none (.jnum 2)).1,
          (wakeup run (.jstr m) none (.jnum 2)).2)) ∧
    (∀ (run : Runner) (m : String),
       (∀ j, j < 2 → okAt run (wolArgs m none) j = true) →
       countSends (wakeup run (.jstr m) none (.jnum 2)).1 = 2) ∧
    (∀ (run : Runner) (mac : JVal) (ip : Option JVal) (N : Int), N ≤ 0 →
       wakeup run mac ip (.jnum N) = ([wakeupInfo mac ip (.jnum N)], .ok ()) ∧
       countSends (wakeup run mac ip (.jnum N)).1 = 0) ∧
    (∀ (run : Runner) (m : String) (ip : Option String) (n : Nat), 0 < n →
       RunnerTotalOn run (wolArgs m ip) →
       countSends (wakeup run (.jstr m) (ip.map .jstr) (.jnum (n : Int))).1 ≤ n ∧
       (countSends (wakeup run (.jstr m) (ip.map .jstr) (.jnum (n : Int))).1 < n ↔
         ∃ f, f + 1 < n ∧ okAt run (wolArgs m ip) f = false) ∧
       (∀ f, f + 1 < n →
         (∀ j, j < f → okAt run (wolArgs m ip) j = true) →
         okAt run (wolArgs m ip) f = false →
         countSends (wakeup run (.jstr m) (ip.map .jstr) (.jnum (n : Int))).1 = f + 1)) := by
  refine ⟨fun run m t p => rfl, ?_, ?_, ?_⟩
  · intro run m hok
    rw [wakeup_jnum_eq, countSends_info_cons]
    have h2 : (2 : Int).toNat = 2 := rfl
    rw [h2]
    exact (wakeupGo_all_ok run (.jstr m) none (wolArgs m none) rfl 2 2 0 (by decide)
      (fun j h1 hj2 => hok j (by omega))).1
  · intro run mac ip N hN
    have h0 : N.toNat = 0 := by omega
    rw [wakeup_jnum_eq, h0]
    refine ⟨rfl, ?_⟩
    rw [countSends_info_cons]
    rfl
  · intro run m ip n hn htot
    have hargs : buildArgs (.jstr m) (ip.map .jstr) = .ok (wolArgs m ip) := by
      cases ip <;> rfl
    have hnn : ((n : Int)).toNat = n := rfl
    rw [wakeup_jnum_eq]
    simp only [countSends_info_cons, hnn]
    have kall := fun (hall : ∀ j, j < n → okAt run (wolArgs m ip) j = true) =>
      (wakeupGo_all_ok run (.jstr m) (ip.map .jstr) (wolArgs m ip) hargs (n : Int) n 0
        (by omega) (fun j h1 hj => hall j (by omega))).1
    have kfail := fun (f : Nat) (hfn : f < n)
        (hbef : ∀ j, j < f → okAt run (wolArgs m ip) j = true)
        (hfail : okAt run (wolArgs m ip) f = false) =>
      (wakeupGo_first_fail run (.jstr m) (ip.map .jstr) (wolArgs m ip) hargs (n : Int) n 0 f
        (by omega) (Nat.zero_le f) (by omega) (fun j h1 hj => hbef j hj) hfail (htot f)).1
    have hle : countSends (wakeupGo run (.jstr m) (ip.map .jstr) (n : Int) 0 n).1 ≤ n := by
      by_cases hex : ∃ f, f < n ∧ okAt run (wolArgs m ip) f = false
      · obtain ⟨f0, hf0n, hf0⟩ := hex
        have hPex : ∃ f, okAt run (wolArgs m ip) f = false := ⟨f0, hf0⟩
        have hFspec : okAt run (wolArgs m ip) (Nat.find hPex) = false := Nat.find_spec hPex
        have hFle : Nat.find hPex ≤ f0 := Nat.find_min' hPex hf0
        have hFmin : ∀ j, j < Nat.find hPex → okAt run (wolArgs m ip) j = true := fun j hj =>
          bool_true_of_not_false (Nat.find_min hPex hj)
        rw [kfail (Nat.find hPex) (by omega) hFmin hFspec]
        omega
      · push_neg at hex
        have hall : ∀ j, j < n → okAt run (wolArgs m ip) j = true := fun j hj =>
          bool_true_of_not_false (hex j hj)
        rw [kall hall]
    refine ⟨hle, ⟨?_, ?_⟩, ?_⟩
    · intro hlt
      by_contra hno
      push_neg at hno
      have hbelow : ∀ j, j + 1 < n → okAt run (wolArgs m ip) j = true := fun j hj =>
        bool_true_of_not_false (hno j hj)
      cases hlast : okAt run (wolArgs m ip) (n - 1)
      · rw [kfail (n - 1) (by omega) (fun j hj => hbelow j (by omega)) hlast] at hlt
        omega
      · have hall : ∀ j, j < n → okAt run (wolArgs m ip) j = true := by
          intro j hj
          by_cases hj1 : j + 1 < n
          · exact hbelow j hj1
          · have hje : j = n - 1 := by omega
            rw [hje]
            exact hlast
        rw [kall hall] at hlt
        omega
    · rintro ⟨f0, hf0n, hf0⟩
      have hPex : ∃ f, okAt run (wolArgs m ip) f = false := ⟨f0, hf0⟩
      have hFspec : okAt run (wolArgs m ip) (Nat.find hPex) = false := Nat.find_spec hPex
      have hFle : Nat.find hPex ≤ f0 := Nat.find_min' hPex hf0
      have hFmin : ∀ j, j < Nat.find hPex → okAt run (wolArgs m ip) j = true := fun j hj =>
        bool_true_of_not_false (Nat.find_min hPex hj)
      rw [kfail (Nat.find hPex) (by omega) hFmin hFspec]
      omega
    · intro f hf hbef hfail
      rw [kfail f (by omega) hbef hfail]
      omega

/-- C3 witness: the default count sends twice with an all-confirming
helper; a repeat count of minus three sends nothing; with a helper failing
at the second attempt and a requested count of three, exactly two sends
occur. -/
theorem C3_repeat_count_semantics_witness :
    countSends (wakeup runMagic (.jstr "AA:BB:CC:DD:EE:FF") none (.jnum 2)).1 = 2 ∧
    countSends (wakeup runMagic (.jstr "AA:BB:CC:DD:EE:FF") none (.jnum (-3))).1 = 0 ∧
    countSends (wakeup runFailAt1 (.jstr "AA:BB:CC:DD:EE:FF") none (.jnum 3)).1 = 2 :=
  ⟨C3_repeat_count_semantics.2.1 runMagic "AA:BB:CC:DD:EE:FF" (fun _ _ => rfl),
   (C3_repeat_count_semantics.2.2.1 runMagic (.jstr "AA:BB:CC:DD:EE:FF") none (-3)
     (by decide)).2,
   (C3_repeat_count_semantics.2.2.2 runFailAt1 "AA:BB:CC:DD:EE:FF" none 3 (by decide)
     (runFailAt1_total (wolArgs "AA:BB:CC:DD:EE:FF" none))).2.2 1 (by decide)
     (fun j hj => by
       have h0 : j = 0 := by omega
       subst h0
       rfl)
     rfl⟩

/-- C5: with a positive count n, when every send succeeds the loop pauses
exactly n - 1 times (never after the final attempt); when the first
failure happens at attempt f, the loop stops with f + 1 sends and only f
pauses, so no pause follows the failed send that aborts the sequence. -/
theorem C5_pause_between_attempts :
    ∀ (run : Runner) (m : String) (ip : Option String) (n : Nat), 0 < n →
      ((∀ j, j < n → okAt run (wolArgs m ip) j = true) →
         countSleeps (wakeup run (.jstr m) (ip.map .jstr) (.jnum (n : Int))).1 = n - 1 ∧
         countSends (wakeup run (.jstr m) (ip.map .jstr) (.jnum (n : Int))).1 = n) ∧
      (∀ f, f < n →
         (∀ j, j < f → okAt run (wolArgs m ip) j = true) →
         okAt run (wolArgs m ip) f = false →
         (∃ st, run f (wolArgs m ip) = .ok st) →
         countSleeps (wakeup run (.jstr m) (ip.map .jstr) (.jnum (n : Int))).1 = f ∧
         countSends (wakeup run (.jstr m) (ip.map .jstr) (.jnum (n : Int))).1 = f + 1) := by
  intro run m ip n hn
  have hargs : buildArgs (.jstr m) (ip.map .jstr) = .ok (wolArgs m ip) := by
    cases ip <;> rfl
  have hnn : ((n : Int)).toNat = n := rfl
  constructor
  · intro hall
    rw [wakeup_jnum_eq]
    simp only [countSends_info_cons, countSleeps_info_cons, hnn]
    have h := wakeupGo_all_ok run (.jstr m) (ip.map .jstr) (wolArgs m ip) hargs (n : Int) n 0
      (by omega) (fun j h1 hj => hall j (by omega))
    exact ⟨h.2.1, h.1⟩
  · intro f hfn hbef hfail hex
    rw [wakeup_jnum_eq]
    simp only [countSends_info_cons, countSleeps_info_cons, hnn]
    have h := wakeupGo_first_fail run (.jstr m) (ip.map .jstr) (wolArgs m ip) hargs (n : Int)
      n 0 f (by omega) (Nat.zero_le f) (by omega) (fun j h1 hj => hbef j hj) hfail hex
    exact ⟨h.2.1, h.1⟩

/-- C5 witness: three confirming sends produce two pauses; with the first
failure at the second attempt, two sends and one pause occur, none after
the failure. -/
theorem C5_pause_between_attempts_witness :
    (countSleeps (wakeup runMagic (.jstr "AA:BB:CC:DD:EE:FF") none (.jnum 3)).1 = 2 ∧
     countSends (wakeup runMagic (.jstr "AA:BB:CC:DD:EE:FF") none (.jnum 3)).1 = 3) ∧
    (countSleeps (wakeup runFailAt1 (.jstr "AA:BB:CC:DD:EE:FF") none (.jnum 3)).1 = 1 ∧
     countSends (wakeup runFailAt1 (.jstr "AA:BB:CC:DD:EE:FF") none (.jnum 3)).1 = 2) :=
  ⟨(C5_pause_between_attempts runMagic "AA:BB:CC:DD:EE:FF" none 3 (by decide)).1
     (fun _ _ => rfl),
   (C5_pause_between_attempts runFailAt1 "AA:BB:CC:DD:EE:FF" none 3 (by decide)).2 1
     (by decide)
     (fun j hj => by
       have h0 : j = 0 := by omega
       subst h0
       rfl)
     rfl
     ⟨procQuiet, rfl⟩⟩

/-- C10: on_message completes without raising for object payloads whose
"repeat" field is absent or an integer (given a present helper binary),
but a string-valued "repeat" such as "2" reaches range(count) inside
wakeup and raises TypeError, which escapes on_message because only
JSONDecodeError is caught. -/
theorem C10_repeat_type_precondition :
    (∀ (run : Runner) (t p : String),
       (on_message run
          (.ok (.jobj [("mac", .jstr "AA:BB:CC:DD:EE:FF"), ("repeat", .jstr "2")])) t p).2 =
         .error .typeError) ∧
    (∀ (run : Runner) (m t p : String) (k : Int),
       RunnerTotalOn run (wolArgs m none) →
       (on_message run (.ok (.jobj [("mac", .jstr m), ("repeat", .jnum k)])) t p).2 =
         .ok ()) ∧
    (∀ (run : Runner) (m t p : String),
       RunnerTotalOn run (wolArgs m none) →
       (on_message run (.ok (.jobj [("mac", .jstr m)])) t p).2 = .ok ()) := by
  refine ⟨fun run t p => rfl, ?_, ?_⟩
  · intro run m t p k htot
    show (wakeup run (.jstr m) none (.jnum k)).2 = .ok ()
    rw [wakeup_jnum_eq]
    exact wakeupGo_no_raise run (.jstr m) none (wolArgs m none) rfl htot k k.toNat 0
  · intro run m t p htot
    show (wakeup run (.jstr m) none (.jnum 2)).2 = .ok ()
    rw [wakeup_jnum_eq]
    exact wakeupGo_no_raise run (.jstr m) none (wolArgs m none) rfl htot 2 (Int.toNat 2) 0

/-- C10 witness: with the helper present, an integer repeat completes
cleanly while the string repeat "2" raises TypeError out of the
callback. -/
theorem C10_repeat_type_precondition_witness :
    (on_message runMagic
       (.ok (.jobj [("mac", .jstr "AA:BB:CC:DD:EE:FF"), ("repeat", .jstr "2")]))
       "wol/command" "x").2 = .error .typeError ∧
    (on_message runMagic
       (.ok (.jobj [("mac", .jstr "AA:BB:CC:DD:EE:FF"), ("repeat", .jnum 2)]))
       "wol/command" "y").2 = .ok () :=
  ⟨C10_repeat_type_precondition.1 runMagic "wol/command" "x",
   C10_repeat_type_precondition.2.1 runMagic "AA:BB:CC:DD:EE:FF" "wol/command" "y" 2
     (fun j => ⟨procMagic, rfl⟩)⟩

/-- countPubs_cons unfolds countPubs over a cons cell. -/
lemma countPubs_cons (topic payload : String) (e : Event) (tr : List Event) :
    countPubs topic payload (e :: tr) =
      (if isPubOf topic payload e = true then 1 else 0) + countPubs topic payload tr := by
  simp only [countPubs, List.filter_cons]
  by_cases h : isPubOf topic payload e = true
  · simp [h, Nat.add_comm]
  · simp [h]

/-- countConns_cons unfolds countConns over a cons cell. -/
lemma countConns_cons (e : Event) (tr : List Event) :
    countConns (e :: tr) = (if isConnE e = true then 1 else 0) + countConns tr := by
  simp only [countConns, List.filter_cons]
  by_cases h : isConnE e = true
  · simp [h, Nat.add_comm]
  · simp [h]

/-- innerLoop_conns notes the heartbeat loop never attempts a socket
connection. -/
lemma innerLoop_conns (u k : Nat) : countConns (innerLoop u k) = 0 := by
  induction k with
  | zero => rfl
  | succ j ih =>
    simp only [innerLoop]
    rw [countConns_cons, countConns_cons, countConns_cons, ih]
    simp [isConnE]

/-- innerLoop_pubs counts one online heartbeat publish per loop
iteration. -/
lemma innerLoop_pubs (u k : Nat) :
    countPubs (MQTT_BASE_TOPIC ++ "/status") "online" (innerLoop u k) = k := by
  induction k with
  | zero => rfl
  | succ j ih =>
    simp only [innerLoop]
    rw [countPubs_cons, countPubs_cons, countPubs_cons, ih]
    simp [isPubOf, isSleepE]
    omega

/-- superLoop_refused_pubs notes no heartbeat publish happens while every
connect attempt is refused at socket level. -/
lemma superLoop_refused_pubs (script : Nat → ConnOutcome) (u : Nat)
    (hs : ∀ a, script a = ConnOutcome.refused) :
    ∀ fuel a, countPubs (MQTT_BASE_TOPIC ++ "/status") "online"
      (superLoop script u a fuel) = 0 := by
  intro fuel
  induction fuel with
  | zero => intro a; rfl
  | succ g ih =>
    intro a
    simp only [superLoop, hs a]
    rw [countPubs_cons, countPubs_cons, countPubs_cons, countPubs_cons, ih (a + 1)]
    simp [isPubOf]

/-- superLoop_sockOk_conns notes that once a connect attempt succeeds at
socket level, the supervisor never issues another connect attempt in any
finite observation: the foreground thread stays inside the heartbeat
loop. -/
lemma superLoop_sockOk_conns (script : Nat → ConnOutcome) (u a : Nat)
    (hs : script a = ConnOutcome.sockOk) :
    ∀ fuel, countConns (superLoop script u a fuel) ≤ 1 := by
  intro fuel
  cases fuel with
  | zero => exact Nat.zero_le 1
  | succ g =>
    simp only [superLoop, hs]
    rw [countConns_cons, countConns_cons, countConns_cons, innerLoop_conns]
    simp [isConnE]

/-- scriptAllOk is the connect script of a reachable broker. -/
def scriptAllOk : Nat → ConnOutcome := fun _ => ConnOutcome.sockOk

/-- scriptAllRefused is the connect script of an unreachable broker. -/
def scriptAllRefused : Nat → ConnOutcome := fun _ => ConnOutcome.refused

/-- C6 (amended): on a non-zero negotiation result the connect callback
performs no subscribe and no online status publish; it logs the error,
forces a disconnect and pauses five seconds; the process does not exit,
but it also does not retry the connection: once a connect attempt
succeeded at socket level the supervisor never issues a second connect
attempt in any finite observation, whatever the negotiation outcome. -/
theorem C6_connack_failure (rc : Int) (hrc : rc ≠ 0)
    (script : Nat → ConnOutcome) (u : Nat) (hs : script 0 = ConnOutcome.sockOk) :
    on_connect rc =
      [.logInfo ("MQTT: connected to broker with result code " ++ toString rc),
       .logError "Failed to correctly login to MQTT broker",
       .disconnect,
       .sleep 5] ∧
    countSubs (on_connect rc) = 0 ∧
    countPubs (MQTT_BASE_TOPIC ++ "/status") "online" (on_connect rc) = 0 ∧
    (∀ fuel, countConns (superLoop script u 0 fuel) ≤ 1) := by
  have htr : on_connect rc =
      [.logInfo ("MQTT: connected to broker with result code " ++ toString rc),
       .logError "Failed to correctly login to MQTT broker",
       .disconnect,
       .sleep 5] := by
    unfold on_connect
    rw [if_neg hrc]
  refine ⟨htr, ?_, ?_, fun fuel => superLoop_sockOk_conns script u 0 hs fuel⟩
  · rw [htr]
    rfl
  · rw [htr]
    rfl

/-- C6 witness: the rejected negotiation with result code 5 subscribes and
publishes nothing, and a supervisor run over a reachable broker performs
at most one connect attempt in seven observed iterations. -/
theorem C6_connack_failure_witness :
    countSubs (on_connect 5) = 0 ∧
    countPubs (MQTT_BASE_TOPIC ++ "/status") "online" (on_connect 5) = 0 ∧
    countConns (superLoop scriptAllOk 60 0 7) ≤ 1 :=
  ⟨(C6_connack_failure 5 (by decide) scriptAllOk 60 rfl).2.1,
   (C6_connack_failure 5 (by decide) scriptAllOk 60 rfl).2.2.1,
   (C6_connack_failure 5 (by decide) scriptAllOk 60 rfl).2.2.2 7⟩

/-- C6 counterexample: the claim says the process retries the connection
after a negotiation failure; in the execution where the first connect
succeeds at socket level and the broker rejects the negotiation, the trace
holds exactly one connect attempt and no subscribe while the process keeps
running (heartbeat publishes continue), so no retry ever occurs. -/
theorem C6_counterexample :
    countConns (connackFailScenario 5) = 1 ∧
    countSubs (connackFailScenario 5) = 0 ∧
    0 < countPubs (MQTT_BASE_TOPIC ++ "/status") "online" (connackFailScenario 5) := by
  refine ⟨rfl, rfl, by decide⟩

/-- C7 (amended): the heartbeat loop publishes "online" to wol/status once
per iteration, each publish followed by a sleep of the configured
interval, and no heartbeat publish occurs while every connect attempt is
refused; but the loop is not gated on the session state: in the
rejected-negotiation execution the heartbeat publishes continue after the
forced disconnect, one per iteration, and the loop does not terminate on
disconnect. -/
theorem C7_heartbeat_loop (u k : Nat) (script : Nat → ConnOutcome)
    (hs : ∀ a, script a = ConnOutcome.refused) :
    innerLoop u (k + 1) =
      .logDebug "MQTT: publishing online Status update" ::
      .publish (MQTT_BASE_TOPIC ++ "/status") "online" ::
      .sleep u :: innerLoop u k ∧
    countPubs (MQTT_BASE_TOPIC ++ "/status") "online" (innerLoop u k) = k ∧
    (∀ fuel a, countPubs (MQTT_BASE_TOPIC ++ "/status") "online"
        (superLoop script u a fuel) = 0) ∧
    connackFailScenario k = connackFailHead ++ innerLoop 60 k ∧
    Event.disconnect ∈ connackFailHead ∧
    countPubs (MQTT_BASE_TOPIC ++ "/status") "online" connackFailHead = 0 ∧
    countPubs (MQTT_BASE_TOPIC ++ "/status") "online" (innerLoop 60 k) = k :=
  ⟨rfl, innerLoop_pubs u k,
   fun fuel a => superLoop_refused_pubs script u hs fuel a,
   rfl, by decide, rfl, innerLoop_pubs 60 k⟩

/-- C7 witness: three heartbeat iterations publish three times, and four
refused supervisor iterations publish nothing. -/
theorem C7_heartbeat_loop_witness :
    countPubs (MQTT_BASE_TOPIC ++ "/status") "online" (innerLoop 60 3) = 3 ∧
    countPubs (MQTT_BASE_TOPIC ++ "/status") "online" (superLoop scriptAllRefused 60 0 4) = 0 :=
  ⟨(C7_heartbeat_loop 60 3 scriptAllRefused (fun _ => rfl)).2.1,
   (C7_heartbeat_loop 60 3 scriptAllRefused (fun _ => rfl)).2.2.1 4 0⟩

/-- C7 counterexample: the claim says no heartbeat publish occurs in the
Disconnected state and that the loop terminates on disconnect; in the
rejected-negotiation execution the session is never Connected (no
subscribe ever occurs) and a disconnect event lies in the head of the
trace, yet three heartbeat publishes still follow it. -/
theorem C7_counterexample :
    connackFailScenario 3 = connackFailHead ++ innerLoop 60 3 ∧
    Event.disconnect ∈ connackFailHead ∧
    countSubs (connackFailScenario 3) = 0 ∧
    countPubs (MQTT_BASE_TOPIC ++ "/status") "online" connackFailHead = 0 ∧
    countPubs (MQTT_BASE_TOPIC ++ "/status") "online" (innerLoop 60 3) = 3 :=
  ⟨rfl, by decide, rfl, rfl, rfl⟩

end WolMqtt
